import Mathlib

/-!
Shallow embedding of the aggregation / forecasting engine of `api.py`
(Mai-Shan-Yun restaurant dashboard).

Modelling conventions:
* Python / numpy floats are modelled as exact rationals (`ℚ`); the float
  literal `1.05` is the rational `21/20`, `0.30` is `3/10`, and so on.
* A pandas cell holds a `Value`: `null` is Python `None`; `native s` is a
  plain Python scalar; `np s` is a numpy scalar (an `np.generic`, the kind
  `pandas` hands out from typed columns), which `v.item()` unwraps to the
  corresponding native scalar.  The float `nan` (the missing-data sentinel)
  is the scalar `Scalar.nan`.
* A dataframe row is an association list from column name to `Value`; a
  dataframe is its ordered column list plus its rows (every row of a real
  dataframe carries exactly the frame's columns, missing data being `nan`).
* Python exceptions (`KeyError` on a missing column, `TypeError` /
  `ValueError` from coercions) are modelled with `Except String`.
* `str()` of a non-integral number is rendered as `num/den`; no property
  proved below depends on the decimal rendering of non-integral floats.
-/

set_option maxRecDepth 4000

namespace MSY

/-- A concrete Python scalar: a number, the float `nan`, a string or a bool. -/
inductive Scalar where
  | num (q : ℚ)
  | nan
  | str (s : String)
  | bool (b : Bool)
deriving DecidableEq

/-- A pandas cell value: `None`, a native Python scalar, or a numpy scalar
(`np.generic`) wrapping a native one. -/
inductive Value where
  | null
  | native (s : Scalar)
  | np (s : Scalar)
deriving DecidableEq

/-- Shorthand for a native numeric value. -/
def natv (n : ℕ) : Value := .native (.num n)

/-- Shorthand for a native rational value. -/
def ratv (q : ℚ) : Value := .native (.num q)

/-- Shorthand for a native string value. -/
def strv (s : String) : Value := .native (.str s)

/-- The scalar inside a value, whether wrapped by numpy or not. -/
def toScalar : Value → Option Scalar
  | .null => none
  | .native s => some s
  | .np s => some s

/-- `safe_val` (api.py lines 36-46).  Order of the source's checks:
`v is None` → default; `isinstance(v, np.generic)` → `v.item()` (the unwrap
happens *before* the NaN check, so a numpy `nan` is returned as a native
`nan`, not replaced by the default); `pd.isna(v)` → default; otherwise `v`.
The surrounding `try`/`except` can only fire on non-scalar inputs, which the
embedding does not contain, so the function is total here as in Python. -/
def safe_val (v : Value) (d : Value) : Value :=
  match v with
  | .null => d
  | .np s => .native s
  | .native .nan => d
  | .native s => .native s

/-! Exact rational arithmetic, expressed through the reducible smart
constructor `mkRat` so that every concrete computation below can be carried
out by kernel reduction (`Rat.mul`, `Rat.add`, ... are `@[irreducible]`).
These are the ordinary field operations on `ℚ`. -/

/-- Rational multiplication (`qMul a b = a * b`). -/
def qMul (a b : ℚ) : ℚ := mkRat (a.num * b.num) (a.den * b.den)

/-- Rational addition (`qAdd a b = a + b`). -/
def qAdd (a b : ℚ) : ℚ := mkRat (a.num * b.den + b.num * a.den) (a.den * b.den)

/-- Rational subtraction (`qSub a b = a - b`). -/
def qSub (a b : ℚ) : ℚ := mkRat (a.num * b.den - b.num * a.den) (a.den * b.den)

/-- Rational division (`qDiv a b = a / b`, with the `a / 0 = 0` convention). -/
def qDiv (a b : ℚ) : ℚ :=
  if b.num < 0 then mkRat (-(a.num * b.den)) (a.den * (-b.num).toNat)
  else mkRat (a.num * b.den) (a.den * b.num.toNat)

/-- Rational comparison `a ≤ b` as a boolean (cross-multiplication). -/
def qLeB (a b : ℚ) : Bool := a.num * (b.den : ℤ) ≤ b.num * (a.den : ℤ)

/-- Rational comparison `a < b` as a boolean (cross-multiplication). -/
def qLtB (a b : ℚ) : Bool := a.num * (b.den : ℤ) < b.num * (a.den : ℤ)

/-- Sum of a list of rationals. -/
def qSum (l : List ℚ) : ℚ := l.foldr qAdd 0

/-- Lowercasing (ASCII, as in the `.lower()` calls of the source). -/
def strLower (s : String) : String := ⟨s.data.map Char.toLower⟩

/-- Does `h` start with `n`? (character-list helper for substring search). -/
def charsLead : List Char → List Char → Bool
  | [], _ => true
  | _ :: _, [] => false
  | a :: n, b :: h => a == b && charsLead n h

/-- Substring search on character lists. -/
def charsSub (n : List Char) : List Char → Bool
  | [] => n.isEmpty
  | b :: h => charsLead n (b :: h) || charsSub n h

/-- Python's `needle in hay` on strings. -/
def strContains (hay needle : String) : Bool :=
  charsSub needle.toList hay.toList

/-- Remove the (non-empty) pattern's occurrences left to right, continuing
after each removed occurrence — Python's `s.replace(pat, '')` — with the
list length as structural fuel. -/
def removeChars (pat : List Char) : ℕ → List Char → List Char
  | _, [] => []
  | 0, l => l
  | fuel + 1, c :: rest =>
    if pat ≠ [] && charsLead pat (c :: rest) then
      removeChars pat fuel ((c :: rest).drop pat.length)
    else c :: removeChars pat fuel rest

/-- Python's `s.replace(pat, '')`. -/
def removeAll (s pat : String) : String :=
  ⟨removeChars pat.data s.data.length s.data⟩

/-- Python's `s.strip()`: drop whitespace from both ends. -/
def pyStrip (s : String) : String :=
  ⟨((s.data.dropWhile Char.isWhitespace).reverse.dropWhile Char.isWhitespace).reverse⟩

/-- Python `str()` of a cell value (`str(None) = "None"`, `str(nan) = "nan"`).
Non-integral numbers are rendered as `num/den`; nothing proved below depends
on that rendering. -/
def pyStr (v : Value) : String :=
  match toScalar v with
  | none => "None"
  | some (.str s) => s
  | some .nan => "nan"
  | some (.bool b) => if b then "True" else "False"
  | some (.num q) =>
      if q.den = 1 then toString q.num
      else toString q.num ++ "/" ++ toString q.den

/-- Python `int()` on a rational: truncation toward zero. -/
def pyInt (q : ℚ) : ℤ :=
  if 0 ≤ q.num then ((q.num.toNat / q.den : ℕ) : ℤ)
  else -(((-q.num).toNat / q.den : ℕ) : ℤ)

/-- Numeric view of a scalar for arithmetic and comparisons:
`some (some x)` a number (bools count as 0/1), `some none` the float `nan`,
`none` not a number (a string). -/
def numView : Scalar → Option (Option ℚ)
  | .num x => some (some x)
  | .bool b => some (some (if b then 1 else 0))
  | .nan => some none
  | .str _ => none

/-- Python `int()` of a cell value; raises on `None`, `nan` and non-numeric
strings, parses integer strings. -/
def pyIntOfVal (v : Value) : Except String ℤ :=
  match toScalar v with
  | some (.num q) => .ok (pyInt q)
  | some (.bool b) => .ok (if b then 1 else 0)
  | some (.str s) =>
      match s.trim.toInt? with
      | some n => .ok n
      | none => .error "ValueError: invalid literal for int()"
  | some .nan => .error "ValueError: cannot convert float NaN to integer"
  | none => .error "TypeError: int() argument is None"

/-- Python `*` on two cell values; `nan` propagates, `None` or strings raise
(`str * float` raises `TypeError`; the integer string-repetition corner of
Python is never exercised by the numeric columns modelled here). -/
def valueMul (a b : Value) : Except String Value :=
  match (toScalar a).bind numView, (toScalar b).bind numView with
  | some (some x), some (some y) => .ok (.native (.num (qMul x y)))
  | some _, some _ => .ok (.native .nan)
  | _, _ => .error "TypeError: unsupported operand type for *"

/-- Python division of a cell value by a constant; `nan` propagates. -/
def valueDivC (a : Value) (c : ℚ) : Except String Value :=
  match (toScalar a).bind numView with
  | some (some x) => .ok (.native (.num (qDiv x c)))
  | some none => .ok (.native .nan)
  | none => .error "TypeError: unsupported operand type for /"

/-- Python `v >= c`; `nan >= c` is `False`, `None` and strings raise. -/
def valueGeC (a : Value) (c : ℚ) : Except String Bool :=
  match (toScalar a).bind numView with
  | some (some x) => .ok (qLeB c x)
  | some none => .ok false
  | none => .error "TypeError: comparison not supported"

/-- Python `v > c`; `nan > c` is `False`, `None` and strings raise. -/
def valueGtC (a : Value) (c : ℚ) : Except String Bool :=
  match (toScalar a).bind numView with
  | some (some x) => .ok (qLtB c x)
  | some none => .ok false
  | none => .error "TypeError: comparison not supported"

/-- The rational inside a numeric cell value. -/
def ratOfVal (a : Value) : Except String ℚ :=
  match (toScalar a).bind numView with
  | some (some x) => .ok x
  | _ => .error "TypeError: not a number"

/-- A dataframe row: association list from column name to cell value. -/
abbrev Row := List (String × Value)

/-- A loaded dataframe: ordered column names and rows. -/
structure Table where
  cols : List String
  rows : List Row

/-- `row['k']` : raises `KeyError` when the column is missing. -/
def getItem (r : Row) (k : String) : Except String Value :=
  match List.lookup k r with
  | some v => .ok v
  | none => .error ("KeyError: " ++ k)

/-- `row.get('k', d)` : default instead of raising. -/
def rowGet (r : Row) (k : String) (d : Value) : Value :=
  (List.lookup k r).getD d

/-- `df['k']` : the column's values, `KeyError` when absent; in a real frame
every row carries the column, missing data being `nan`. -/
def colVals (t : Table) (c : String) : Except String (List Value) :=
  if t.cols.contains c then .ok (t.rows.map (fun r => rowGet r c (.native .nan)))
  else .error ("KeyError: " ++ c)

/-- The canonical period (month) list of the dashboard. -/
def months : List String := ["May", "June", "July", "August", "September", "October"]

/-! ### `/api/ingredient-usage` (api.py lines 122-149) -/

/-- Per-row weekly usage (`weekly_calc`, api.py lines 129-138).  The source
checks `'weekly' in freq` **first**, then `'biweekly'`, then `'monthly'`. -/
def weekly_calc (r : Row) : Except String Value := do
  let a := safe_val (rowGet r "Quantity per shipment" (natv 0)) (natv 0)
  let b := safe_val (rowGet r "Number of shipments" (natv 0)) (natv 0)
  let qty ← valueMul a b
  let freq := strLower (pyStr (safe_val (rowGet r "frequency" (strv "")) (natv 0)))
  if strContains freq "weekly" then .ok qty
  else if strContains freq "biweekly" then valueDivC qty 2
  else if strContains freq "monthly" then valueDivC qty 4
  else .ok qty

/-- The result shape of `/api/ingredient-usage`. -/
structure UsageOut where
  labels : List String
  data : List ℤ
deriving DecidableEq

/-- Is a cell `None` or `nan` (pandas `isnull`)? -/
def isNaLike (v : Value) : Bool :=
  match toScalar v with
  | none => true
  | some .nan => true
  | some _ => false

/-- The numeric key used when ranking weekly-usage values (the kept values
are numbers once `nan` rows are dropped). -/
def keyQ (v : Value) : ℚ :=
  match (toScalar v).bind numView with
  | some (some x) => x
  | _ => 0

/-- Body of `/api/ingredient-usage` inside its `try` (api.py lines 127-146):
compute `weekly_usage` per row, return empty when all values are null,
otherwise take the 6 largest (pandas `nlargest`: descending, ties by
original position, `nan` rows excluded). -/
def usageBody (t : Table) : Except String UsageOut := do
  let weekly ← t.rows.mapM weekly_calc
  if weekly.all isNaLike then .ok ⟨[], []⟩
  else
    let pairs := (t.rows.zip weekly).filter (fun p => !(isNaLike p.2))
    let top6 := (List.insertionSort (fun p q => qLeB (keyQ q.2) (keyQ p.2) = true) pairs).take 6
    let labels := if t.cols.contains "Ingredient" then
        top6.map (fun p => pyStr (rowGet p.1 "Ingredient" (.native .nan)))
      else []
    let data ← top6.mapM (fun p => pyIntOfVal (safe_val p.2 (natv 0)))
    .ok ⟨labels, data⟩

/-- `/api/ingredient-usage`: `{labels:[],data:[]}` when the shipment table is
absent or when anything inside the body raises. -/
def ingredient_usage (o : Option Table) : UsageOut :=
  match o with
  | none => ⟨[], []⟩
  | some t =>
    match usageBody t with
    | .ok u => u
    | .error _ => ⟨[], []⟩

/-! ### `/api/sales-trends` (api.py lines 151-179) -/

/-- The fixed category → keyword-list table. -/
def categories : List (String × List String) :=
  [("Ramen Dishes", ["Ramen"]),
   ("Fried Rice", ["Fried Rice"]),
   ("Wings & Cutlets", ["Wing", "Cutlet"]),
   ("Rice Noodles", ["Rice Noodle"])]

/-- The result shape of `/api/sales-trends`. -/
structure TrendsOut where
  labels : List String
  datasets : List (String × List ℕ)
deriving DecidableEq

/-- `/api/sales-trends`: for each category and each loaded month, the sum
over the category's keywords of the number of rows whose `Group` value
(as a string, case-insensitively) contains the keyword; 0 when the month's
table has no `Group` column. -/
def sales_trends (ms : List (String × Table)) : TrendsOut :=
  if ms.isEmpty then ⟨[], []⟩
  else
    let available := months.filter (fun m => (List.lookup m ms).isSome)
    let ds := categories.map (fun c =>
      (c.1, available.map (fun m =>
        let t := (List.lookup m ms).getD ⟨[], []⟩
        if t.cols.contains "Group" then
          (c.2.map (fun kw =>
            t.rows.countP (fun r =>
              strContains (strLower (pyStr (rowGet r "Group" (.native .nan)))) (strLower kw)))).sum
        else 0)))
    ⟨available, ds⟩

/-! ### `/api/forecast` (api.py lines 181-205) -/

/-- The result shape of `/api/forecast` (`None` entries are `none`). -/
structure ForecastOut where
  labels : List String
  actual : List (Option ℤ)
  predicted : List (Option ℤ)
deriving DecidableEq

/-- Exact degree-1 least-squares fit `(slope, intercept)` over
`x = 0 .. len-1` (the mathematical content of `np.polyfit(x, y, 1)`). -/
def polyfit1 (ys : List ℚ) : ℚ × ℚ :=
  let k : ℚ := ys.length
  let xs : List ℚ := (List.range ys.length).map (fun n => (n : ℚ))
  let sx := qSum xs
  let sy := qSum ys
  let sxx := qSum (xs.map (fun x => qMul x x))
  let sxy := qSum (List.zipWith qMul xs ys)
  let d := qSub (qMul k sxx) (qMul sx sx)
  let a := qDiv (qSub (qMul k sxy) (qMul sx sy)) d
  (a, qDiv (qSub sy (qMul a sx)) k)

/-- `/api/forecast`: row counts of the loaded months in canonical order;
a least-squares projection when at least two months are loaded, otherwise a
5%-growth fallback; all projections truncated by Python `int()`. -/
def forecast (ms : List (String × Table)) : ForecastOut :=
  if ms.isEmpty then ⟨[], [], []⟩
  else
    let available := months.filter (fun m => (List.lookup m ms).isSome)
    let actual : List ℕ := available.map (fun m => ((List.lookup m ms).getD ⟨[], []⟩).rows.length)
    let fs : ℤ × ℤ :=
      if 2 ≤ actual.length then
        let ab := polyfit1 (actual.map (fun n => (n : ℚ)))
        (pyInt (qAdd (qMul ab.1 (actual.length : ℚ)) ab.2),
         pyInt (qAdd (qMul ab.1 (qAdd (actual.length : ℚ) 1)) ab.2))
      else
        match actual.getLast? with
        | some last =>
            let f1 := pyInt (qMul (last : ℚ) (mkRat 21 20))
            (f1, pyInt (qMul (f1 : ℚ) (mkRat 21 20)))
        | none => (500, pyInt (qMul (500 : ℚ) (mkRat 21 20)))
    let bridge : ℤ := match actual.getLast? with | some n => (n : ℤ) | none => 500
    ⟨available ++ ["Forecast 1", "Forecast 2"],
     actual.map (fun n => some (n : ℤ)) ++ [none, none],
     (List.replicate (actual.length - 1) none) ++ [some bridge, some fs.1, some fs.2]⟩

/-! ### `/api/alerts` (api.py lines 207-230) -/

/-- One alert entry. -/
structure Alert where
  type : String
  title : String
  message : String
deriving DecidableEq

/-- The per-row alert scan of `/api/alerts`: a high-frequency warning when
`Number of shipments >= 5` and a critical alert when the ingredient name
contains "egg" (case-insensitively); `row['...']` accesses raise `KeyError`
on a missing column (there is no `try` in this route). -/
def alertRows : List Row → Except String (List Alert)
  | [] => .ok []
  | r :: rs => do
    let ingV ← getItem r "Ingredient"
    let ing := pyStr ingV
    let nV ← getItem r "Number of shipments"
    let ge5 ← valueGeC nV 5
    let first ←
      if ge5 then do
        let n ← pyIntOfVal nV
        let fV ← getItem r "frequency"
        pure [⟨"warning", ing ++ " - High Frequency",
               toString n ++ " shipments " ++ pyStr fV⟩]
      else pure []
    let second ←
      if strContains (strLower ing) "egg" then do
        let qV ← getItem r "Quantity per shipment"
        let qty ← valueMul qV nV
        let total ← pyIntOfVal qty
        let uV ← getItem r "Unit of shipment"
        let fV ← getItem r "frequency"
        pure [⟨"critical", ing ++ " - Critical Item",
               "Requires " ++ toString total ++ " " ++ pyStr uV ++ " per " ++ pyStr fV⟩]
      else pure []
    let rest ← alertRows rs
    .ok (first ++ second ++ rest)

/-- `/api/alerts`: empty when the shipment table is absent; otherwise the
per-row scan truncated to the first 3 entries. -/
def alerts (o : Option Table) : Except String (List Alert) :=
  match o with
  | none => .ok []
  | some t => (alertRows t.rows).map (fun l => l.take 3)

/-! ### `/api/shipment-schedule` (api.py lines 232-261) -/

/-- The fixed emoji lookup table (first key contained in the lowercased
ingredient name wins). -/
def emojis : List (String × String) :=
  [("beef", "🥩"), ("chicken", "🍗"), ("ramen", "🍜"), ("egg", "🥚"),
   ("rice", "🌾"), ("onion", "🧅"), ("carrot", "🥕"), ("flour", "🌾")]

/-- One schedule entry. -/
structure SchedEntry where
  ingredient : String
  frequency : String
  nextDelivery : String
  overdue : Bool
deriving DecidableEq

/-- The per-row schedule build.  The source draws `np.random.randint(1, 7)`
for each row's `nextDelivery`; the draws are passed here explicitly as the
stream `rng` (one entry consumed per row), which makes the hidden random
state an explicit input of the computation. -/
def schedRows : List Row → List ℤ → Except String (List SchedEntry)
  | [], _ => .ok []
  | r :: rs, rng => do
    let ing := pyStr (safe_val (rowGet r "Ingredient" (strv "Unknown")) (natv 0))
    let emoji := ((emojis.find? (fun p => strContains (strLower ing) p.1)).map Prod.snd).getD "📦"
    let freqV := safe_val (rowGet r "frequency" (strv "unknown")) (natv 0)
    let ns ← pyIntOfVal (safe_val (rowGet r "Number of shipments" (natv 0)) (natv 0))
    let rest ← schedRows rs rng.tail
    .ok (⟨emoji ++ " " ++ ing,
          pyStr freqV ++ " (" ++ toString ns ++ "x)",
          toString (rng.headD 1) ++ " days",
          false⟩ :: rest)

/-- `/api/shipment-schedule`: empty when the shipment table is absent, and
the route's `try`/`except` turns any error into the empty list. -/
def shipment_schedule (o : Option Table) (rng : List ℤ) : List SchedEntry :=
  match o with
  | none => []
  | some t =>
    match schedRows t.rows rng with
    | .ok l => l
    | .error _ => []

/-! ### `/api/cost-analysis` (api.py lines 263-303) -/

/-- The fixed keyword → unit-cost table.  Third components are Python's
`str()` of the source's cost literals (`str(0.30) = "0.3"`, `str(8) = "8"`),
used verbatim inside the `details` string. -/
def costs : List (String × ℚ × String) :=
  [("beef", (8, "8")), ("chicken", (4, "4")), ("egg", (mkRat 3 10, "0.3")),
   ("rice", (2, "2")), ("ramen", (mkRat 3 2, "1.5")), ("flour", (mkRat 1 2, "0.5")),
   ("onion", (mkRat 1 10, "0.1")), ("carrot", (3, "3"))]

/-- One cost-analysis entry.  `costKey` is the integer the source's final
sort recovers by `int(cost.replace('$','').replace('/wk',''))`; since the
`cost` string is built as `f"${int(weekly_cost)}/wk"` and `int(str(n)) = n`
for a Python int `n`, that re-parsed key is exactly `int(weekly_cost)`,
recorded here next to the formatted string. -/
structure CostEntry where
  ingredient : Value
  details : String
  cost : String
  costKey : ℤ
  percentage : ℤ
deriving DecidableEq

/-- One row of `/api/cost-analysis` (api.py lines 272-300), returning the
entry together with the underlying (un-truncated) rational weekly cost,
which exists only as an intermediate in the source.  The frequency test
again checks `'weekly'` before `'biweekly'`/`'monthly'`. -/
def costRow (r : Row) : Except String (CostEntry × ℚ) := do
  let ingV ← getItem r "Ingredient"
  let ing := strLower (pyStr ingV)
  let cpu := ((costs.find? (fun p => strContains ing p.1)).map Prod.snd).getD (3, "3")
  let qV ← getItem r "Quantity per shipment"
  let nV ← getItem r "Number of shipments"
  let qty ← valueMul qV nV
  let fV ← getItem r "frequency"
  let freq := strLower (pyStr fV)
  let wq ←
    if strContains freq "weekly" then .ok qty
    else if strContains freq "biweekly" then valueDivC qty 2
    else if strContains freq "monthly" then valueDivC qty 4
    else .ok qty
  let wc ← valueMul wq (ratv cpu.1)
  let wqi ← pyIntOfVal wq
  let uV ← getItem r "Unit of shipment"
  let wci ← pyIntOfVal wc
  let wcq ← ratOfVal wc
  let pct := min 100 (pyInt (qMul (qDiv wcq 1500) 100))
  .ok (⟨ingV,
        toString wqi ++ " " ++ pyStr uV ++ "/week @ $" ++ cpu.2 ++ "/" ++ pyStr uV,
        "$" ++ toString wci ++ "/wk",
        wci,
        pct⟩, wcq)

/-- The underlying numeric weekly cost of a shipment row (the value the
spec says the entries should be ordered by). -/
def rowWeeklyCost (r : Row) : Except String ℚ :=
  (costRow r).map Prod.snd

/-- `/api/cost-analysis`: empty when the shipment table is absent; otherwise
all rows' entries, sorted descending by the re-parsed integer cost (a stable
sort, as Python's `list.sort` is), truncated to 5. -/
def cost_analysis (o : Option Table) : Except String (List CostEntry) :=
  match o with
  | none => .ok []
  | some t =>
    (t.rows.mapM costRow).map (fun l =>
      (List.insertionSort (fun a b => b.costKey ≤ a.costKey) (l.map Prod.fst)).take 5)

/-! ### `/api/recommendations` (api.py lines 305-334) -/

/-- One recommendation entry. -/
structure Rec where
  type : String
  title : String
  message : String
deriving DecidableEq

/-- The fixed fresh-produce set. -/
def fresh : List String := ["Green Onion", "Cilantro", "Bokchoy"]

/-- `', '.join` demands string elements (a non-string raises `TypeError`). -/
def strOfStrict (v : Value) : Except String String :=
  match toScalar v with
  | some (.str s) => .ok s
  | _ => .error "TypeError: sequence item is not a str"

/-- Python `==` between a cell value and a string literal. -/
def valEqStr (v : Value) (f : String) : Bool :=
  match toScalar v with
  | some (.str s) => s == f
  | _ => false

/-- `/api/recommendations`: a bulk-buying suggestion when some shipment has
`Number of shipments >= 4` (naming the first two such ingredients), a
waste-reduction suggestion when a fresh-produce name occurs, and a
menu-engineering suggestion when the ingredient table is loaded.  The column
accesses have no guard, so a missing column raises. -/
def recommendations (ship : Option Table) (ingr : Option Table) : Except String (List Rec) := do
  let part1 ←
    match ship with
    | none => pure ([] : List Rec)
    | some t => do
      let nums ← colVals t "Number of shipments"
      let flags ← nums.mapM (fun v => valueGeC v 4)
      let hf := ((t.rows.zip flags).filter (fun p => p.2)).map (fun p => p.1)
      let r1 ←
        if 0 < hf.length then do
          let ingCol ←
            if t.cols.contains "Ingredient" then
              pure ((hf.take 2).map (fun r => rowGet r "Ingredient" (.native .nan)))
            else .error "KeyError: Ingredient"
          let names ← ingCol.mapM strOfStrict
          pure [(⟨"success", "Bulk Buying Opportunity",
                 "Consider monthly contracts for " ++ String.intercalate ", " names ++
                 " to save 10-15%"⟩ : Rec)]
        else pure []
      let ingVals ← colVals t "Ingredient"
      let r2 :=
        if fresh.any (fun f => ingVals.any (fun v => valEqStr v f)) then
          [(⟨"success", "Reduce Waste",
            "Fresh vegetables have high spoilage. Optimize for 5-day freshness."⟩ : Rec)]
        else []
      pure (r1 ++ r2)
  let part2 :=
    match ingr with
    | none => ([] : List Rec)
    | some t =>
      [⟨"success", "Menu Engineering",
        "Promote dishes with overlapping ingredients (" ++ toString t.rows.length ++ " items)."⟩]
  .ok (part1 ++ part2)

/-! ### `/api/protein-forecast` (api.py lines 336-364) -/

/-- One protein-forecast entry. -/
structure ProteinEntry where
  amount : String
  shipments : String
deriving DecidableEq

/-- The two dictionary keys the row loop can ever write. -/
inductive ProtTag where
  | beef
  | chicken
deriving DecidableEq

/-- The dictionary key of a tag. -/
def tagKey : ProtTag → String
  | .beef => "beef"
  | .chicken => "chicken"

/-- Python dict write `d[k] = v` on an insertion-ordered association list:
replace in place if the key exists, else append. -/
def upsert (k : String) (v : ProteinEntry) : List (String × ProteinEntry) → List (String × ProteinEntry)
  | [] => [(k, v)]
  | (k2, v2) :: t => if k2 = k then (k, v) :: t else (k2, v2) :: upsert k v t

/-- The per-row action of `/api/protein-forecast`: which protein key (if
any) the row writes, and the entry written.  The frequency scaling is
`if 'weekly' not in freq: qty = qty/2 if 'biweekly' in freq else qty/4`. -/
def proteinRowAct (r : Row) : Except String (Option (ProtTag × ProteinEntry)) := do
  let ingV ← getItem r "Ingredient"
  let ing := strLower (pyStr ingV)
  let qV ← getItem r "Quantity per shipment"
  let nV ← getItem r "Number of shipments"
  let qty ← valueMul qV nV
  let fV ← getItem r "frequency"
  let freq := strLower (pyStr fV)
  let qty2 ←
    if strContains freq "weekly" then .ok qty
    else if strContains freq "biweekly" then valueDivC qty 2
    else valueDivC qty 4
  if strContains ing "beef" then do
    let a ← pyIntOfVal qty2
    let uV ← getItem r "Unit of shipment"
    let nn ← pyIntOfVal nV
    .ok (some (.beef, ⟨toString a ++ " " ++ pyStr uV, toString nn ++ " shipments"⟩))
  else if strContains ing "chicken" && !(strContains ing "wing") then do
    let a ← pyIntOfVal qty2
    let uV ← getItem r "Unit of shipment"
    let nn ← pyIntOfVal nV
    .ok (some (.chicken, ⟨toString a ++ " " ++ pyStr uV, toString nn ++ " shipments"⟩))
  else .ok none

/-- Python dict lookup on the insertion-ordered association list. -/
def dlookup (k : String) : List (String × ProteinEntry) → Option ProteinEntry
  | [] => none
  | (k2, v) :: t => if k2 = k then some v else dlookup k t

/-- The accumulating row loop of `/api/protein-forecast`. -/
def proteinRows : List Row → List (String × ProteinEntry) → Except String (List (String × ProteinEntry))
  | [], acc => .ok acc
  | r :: rs, acc =>
    match proteinRowAct r with
    | .error e => .error e
    | .ok (some (tag, e)) => proteinRows rs (upsert (tagKey tag) e acc)
    | .ok none => proteinRows rs acc

/-- `/api/protein-forecast`: empty dict when the shipment table is absent;
otherwise the row loop's dict, with the hardcoded pork placeholder appended
when no "pork" key is present. -/
def protein_forecast (o : Option Table) : Except String (List (String × ProteinEntry)) :=
  match o with
  | none => .ok []
  | some t =>
    (proteinRows t.rows []).map (fun d =>
      if (dlookup "pork" d).isSome then d
      else d ++ [("pork", ⟨"40 lbs", "estimated"⟩)])

/-! ### `/api/ingredient-matrix` (api.py lines 366-395) -/

/-- Strip the unit-annotation suffixes and surrounding whitespace from a
column name. -/
def cleanCol (c : String) : String :=
  pyStrip (removeAll (removeAll (removeAll c "(g)") "(count)") "(pcs)")

/-- Is a cell a "used ingredient" value:
`pd.notna(val) and val != 0 and val != ''`?  (Python `False == 0`, so a
bool counts only when `True`; a non-empty string is used, `0` is not.) -/
def usedVal (v : Value) : Bool :=
  match toScalar v with
  | none => false
  | some .nan => false
  | some (.num q) => decide (q ≠ 0)
  | some (.str s) => decide (s ≠ "")
  | some (.bool b) => b

/-- The used-ingredient column scan of one row over the columns after the
item name; `row[col]` raises on a column missing from the row. -/
def usedCols : List String → Row → Except String (List String)
  | [], _ => .ok []
  | c :: cs, r => do
    let v ← getItem r c
    let rest ← usedCols cs r
    if usedVal v then .ok (cleanCol c :: rest) else .ok rest

/-- The fixed ordered protein-bearing column list. -/
def proteinCols : List String := ["braised beef used (g)", "Braised Chicken(g)", "Braised Pork(g)"]

/-- The protein scan: the first listed column that is present in the row,
non-null and `> 0` gives `str(int(value))`, else "0".  The `> 0` comparison
raises on a string value (guarded by `pd.notna`, not by type). -/
def proteinScan : List String → Row → Except String String
  | [], _ => .ok "0"
  | c :: cs, r =>
    match List.lookup c r with
    | none => proteinScan cs r
    | some v =>
      if isNaLike v then proteinScan cs r
      else do
        let b ← valueGtC v 0
        if b then do
          let n ← pyIntOfVal v
          .ok (toString n)
        else proteinScan cs r

/-- The complexity tier as a function of the used-ingredient count
(api.py line 386). -/
def complexityOf (n : ℕ) : String :=
  if n ≤ 3 then "Low" else if n ≤ 6 then "Medium" else "High"

/-- One ingredient-matrix entry. -/
structure MatrixEntry where
  menuItem : Value
  keyIngredients : String
  protein : String
  complexity : String
deriving DecidableEq

/-- One row of `/api/ingredient-matrix` (api.py lines 372-393). -/
def matrixRow (cols : List String) (r : Row) : Except String MatrixEntry :=
  match usedCols (cols.drop 1) r with
  | .error e => .error e
  | .ok ingredients =>
    match proteinScan proteinCols r with
    | .error e => .error e
    | .ok protein =>
      match getItem r "Item name" with
      | .error e => .error e
      | .ok item =>
        .ok ⟨item, String.intercalate ", " (ingredients.take 4), protein,
             complexityOf ingredients.length⟩

/-- `/api/ingredient-matrix`: empty when the ingredient table is absent;
no guard otherwise, so a missing column raises. -/
def ingredient_matrix (o : Option Table) : Except String (List MatrixEntry) :=
  match o with
  | none => .ok []
  | some t => t.rows.mapM (matrixRow t.cols)

/-! ### Decidability of result equality, and concrete fixtures -/

instance {ε : Type u} {α : Type v} [DecidableEq ε] [DecidableEq α] : DecidableEq (Except ε α) :=
  fun a b =>
    match a, b with
    | .ok x, .ok y =>
        if h : x = y then .isTrue (congrArg Except.ok h)
        else .isFalse (fun hh => h (Except.ok.inj hh))
    | .error x, .error y =>
        if h : x = y then .isTrue (congrArg Except.error h)
        else .isFalse (fun hh => h (Except.error.inj hh))
    | .ok _, .error _ => .isFalse (fun hh => Except.noConfusion hh)
    | .error _, .ok _ => .isFalse (fun hh => Except.noConfusion hh)

/-- The shipment table's column list. -/
def shipCols : List String :=
  ["Ingredient", "Quantity per shipment", "Number of shipments", "frequency", "Unit of shipment"]

/-- A shipment row whose frequency text is "biweekly". -/
def rowBiweekly : Row :=
  [("Ingredient", strv "Rice"), ("Quantity per shipment", natv 10),
   ("Number of shipments", natv 1), ("frequency", strv "biweekly"),
   ("Unit of shipment", strv "kg")]

/-- An egg row with true weekly cost 17 × $0.30 = $5.1. -/
def rowEgg1 : Row :=
  [("Ingredient", strv "egg one"), ("Quantity per shipment", natv 17),
   ("Number of shipments", natv 1), ("frequency", strv "weekly"),
   ("Unit of shipment", strv "doz")]

/-- An egg row with true weekly cost 19 × $0.30 = $5.7. -/
def rowEgg2 : Row :=
  [("Ingredient", strv "egg two"), ("Quantity per shipment", natv 19),
   ("Number of shipments", natv 1), ("frequency", strv "weekly"),
   ("Unit of shipment", strv "doz")]

/-- The cost entry `cost_analysis` produces for `rowEgg1`. -/
def eggEntry1 : CostEntry := ⟨strv "egg one", "17 doz/week @ $0.3/doz", "$5/wk", 5, 0⟩

/-- The cost entry `cost_analysis` produces for `rowEgg2`. -/
def eggEntry2 : CostEntry := ⟨strv "egg two", "19 doz/week @ $0.3/doz", "$5/wk", 5, 0⟩

/-- A shipment row with 5 shipments (high-frequency boundary, inclusive). -/
def row5 : Row :=
  [("Ingredient", strv "Rice"), ("Quantity per shipment", natv 10),
   ("Number of shipments", natv 5), ("frequency", strv "weekly"),
   ("Unit of shipment", strv "kg")]

/-- A shipment row with 4 shipments (below the high-frequency boundary). -/
def row4 : Row :=
  [("Ingredient", strv "Rice"), ("Quantity per shipment", natv 10),
   ("Number of shipments", natv 4), ("frequency", strv "weekly"),
   ("Unit of shipment", strv "kg")]

/-- A shipment row whose ingredient name contains "egg". -/
def rowEggA : Row :=
  [("Ingredient", strv "Egg"), ("Quantity per shipment", natv 10),
   ("Number of shipments", natv 2), ("frequency", strv "weekly"),
   ("Unit of shipment", strv "doz")]

/-- A sales table with 200 rows. -/
def tbl200 : Table := ⟨[], List.replicate 200 []⟩

/-- Three loaded periods with row counts 0, 1, 1. -/
def tblsLinCex : List (String × Table) :=
  [("May", ⟨[], []⟩), ("June", ⟨[], [[]]⟩), ("July", ⟨[], [[]]⟩)]

/-- Three loaded periods with row counts 10, 20, 30. -/
def tbls102030 : List (String × Table) :=
  [("May", ⟨[], List.replicate 10 []⟩), ("June", ⟨[], List.replicate 20 []⟩),
   ("July", ⟨[], List.replicate 30 []⟩)]

/-- Column list of the concrete ingredient-composition fixture. -/
def icols : List String :=
  ["Item name", "a (g)", "b(count)", "c(pcs)", "d(g)", "e(g)", "f(g)", "g(g)"]

/-- Build an ingredient-composition row from the seven quantity cells. -/
def irow (vals : List ℚ) : Row :=
  ("Item name", strv "Dish") ::
    List.zip ["a (g)", "b(count)", "c(pcs)", "d(g)", "e(g)", "f(g)", "g(g)"] (vals.map ratv)

/-- A row with exactly 3 used ingredient columns. -/
def irow3 : Row := irow [1, 2, 3, 0, 0, 0, 0]

/-- A row with exactly 4 used ingredient columns. -/
def irow4 : Row := irow [1, 2, 3, 4, 0, 0, 0]

/-- A row with exactly 7 used ingredient columns. -/
def irow7 : Row := irow [1, 2, 3, 4, 5, 6, 7]

/-- The projection of a schedule entry that forgets the random
`nextDelivery` field. -/
def projSched (e : SchedEntry) : String × String × Bool :=
  (e.ingredient, e.frequency, e.overdue)

/-! ## Theorems -/

/-- C1: the claim says a frequency string containing "biweekly" always gets
factor 0.5 (biweekly checked before weekly), never 1.0.  The code checks
`'weekly' in freq` first, and "biweekly" contains "weekly" as a substring,
so the `elif 'biweekly'` branch is unreachable and the factor applied is
1.0: with quantity 10 × 1 shipment at frequency "biweekly", `weekly_calc`
returns 10 (the claim demands 5), and `cost_analysis` prices the same rice
row at $20/wk (10 kg × $2/kg) instead of the claimed $10/wk. -/
theorem weekly_factor_biweekly_is_one :
    weekly_calc rowBiweekly = .ok (natv 10) ∧
    weekly_calc rowBiweekly ≠ .ok (natv 5) ∧
    cost_analysis (some ⟨shipCols, [rowBiweekly]⟩) =
      .ok [⟨strv "Rice", "10 kg/week @ $2/kg", "$20/wk", 20, 1⟩] := by
  refine ⟨rfl, by decide, rfl⟩

/-- C2 counterexample: the claim says every engine operation tolerates a
present table with missing columns and never raises; but `alerts` on a
one-row shipment table that lacks the "Number of shipments" column raises
`KeyError` (there is no `try` in that route), so the exception escapes the
engine. -/
theorem alerts_missing_column_raises :
    alerts (some ⟨["Ingredient"], [[("Ingredient", strv "Rice")]]⟩) =
      .error "KeyError: Number of shipments" := rfl

/-- C2 (amended): when the input tables are absent (and, for the per-period
tables, when none is loaded), every engine operation does return its
well-formed empty/default structure without raising; the never-raises part
of the claim fails for present tables with missing columns
(see the counterexample). -/
theorem engine_absent_tables_default :
    alerts none = .ok [] ∧
    cost_analysis none = .ok [] ∧
    recommendations none none = .ok [] ∧
    ingredient_usage none = ⟨[], []⟩ ∧
    sales_trends [] = ⟨[], []⟩ ∧
    forecast [] = ⟨[], [], []⟩ ∧
    ingredient_matrix none = .ok [] :=
  ⟨rfl, rfl, rfl, rfl, rfl, rfl, rfl⟩

/-- C3 counterexample: the claim says every read-only operation, including
the shipment-schedule listing, is a deterministic function of the snapshot;
but the schedule's `nextDelivery` field comes from `np.random.randint(1,7)`
(hidden mutable RNG state), so two calls on the same snapshot — here with
draws 1 and 2, both values `randint(1,7)` can produce — return different
results. -/
theorem shipment_schedule_two_runs_differ :
    shipment_schedule (some ⟨shipCols, [row5]⟩) [1] ≠
      shipment_schedule (some ⟨shipCols, [row5]⟩) [2] := by decide

/-- Projection-determinism helper for the schedule row loop: the random
stream only ever enters the `nextDelivery` field. -/
theorem schedRows_proj_rng (rows : List Row) :
    ∀ rng1 rng2, (schedRows rows rng1).map (List.map projSched) =
      (schedRows rows rng2).map (List.map projSched) := by
  induction rows with
  | nil => intro rng1 rng2; rfl
  | cons r rs ih =>
    intro rng1 rng2
    simp only [schedRows]
    cases hp : pyIntOfVal (safe_val (rowGet r "Number of shipments" (natv 0)) (natv 0)) with
    | error e => simp [hp, Except.map, Except.bind, Bind.bind]
    | ok n =>
      have h := ih rng1.tail rng2.tail
      cases h1 : schedRows rs rng1.tail with
      | error e1 =>
        cases h2 : schedRows rs rng2.tail with
        | error e2 =>
          rw [h1, h2] at h
          simp only [Except.map] at h
          simp [hp, h1, h2, Except.map, Except.bind, Bind.bind, h]
        | ok l2 => rw [h1, h2] at h; simp [Except.map] at h
      | ok l1 =>
        cases h2 : schedRows rs rng2.tail with
        | error e2 => rw [h1, h2] at h; simp [Except.map] at h
        | ok l2 =>
          rw [h1, h2] at h
          simp only [Except.map, Except.ok.injEq] at h
          simp [hp, h1, h2, Except.map, Except.bind, Bind.bind, projSched, h]

/-- C3 (amended): every read-only engine operation of the embedding is a
pure function of the snapshot except the shipment-schedule listing, whose
`nextDelivery` field is drawn from the process RNG; with `nextDelivery`
erased, the schedule too is a deterministic function of the snapshot,
whatever the random draws are. -/
theorem shipment_schedule_deterministic_mod_rng (o : Option Table) (rng1 rng2 : List ℤ) :
    (shipment_schedule o rng1).map projSched =
      (shipment_schedule o rng2).map projSched := by
  cases o with
  | none => rfl
  | some t =>
    have h := schedRows_proj_rng t.rows rng1 rng2
    simp only [shipment_schedule]
    cases h1 : schedRows t.rows rng1 with
    | error e1 =>
      cases h2 : schedRows t.rows rng2 with
      | error e2 => rfl
      | ok l2 => rw [h1, h2] at h; simp [Except.map] at h
    | ok l1 =>
      cases h2 : schedRows t.rows rng2 with
      | error e2 => rw [h1, h2] at h; simp [Except.map] at h
      | ok l2 =>
        rw [h1, h2] at h
        simp only [Except.map, Except.ok.injEq] at h
        exact h

/-- C4 counterexample: the claim says the top-cost-drivers list is ordered
by the underlying numeric weekly cost, not by a value re-parsed from the
formatted string; but on two egg rows with true weekly costs $5.1 and $5.7
(appearing in that order) both entries format to "$5/wk", the re-parsed
keys tie, and the stable sort leaves the cheaper row first — the output is
not descending in the true numeric cost. -/
theorem cost_sort_key_is_reparsed_string :
    cost_analysis (some ⟨shipCols, [rowEgg1, rowEgg2]⟩) = .ok [eggEntry1, eggEntry2] ∧
    eggEntry1.cost = eggEntry2.cost ∧
    rowWeeklyCost rowEgg1 = .ok (mkRat 51 10) ∧
    rowWeeklyCost rowEgg2 = .ok (mkRat 57 10) ∧
    qLtB (mkRat 51 10) (mkRat 57 10) = true := by decide

/-- C4 (amended): the top-cost-drivers list has at most 5 entries and is
sorted descending by the integer key re-parsed from the formatted cost
string (`int(weekly_cost)`), ties keeping the original row order; ordering
by the exact numeric weekly cost fails when truncated costs collide (see
the counterexample). -/
theorem cost_analysis_bounded_and_sorted (o : Option Table) (l : List CostEntry)
    (h : cost_analysis o = .ok l) :
    l.length ≤ 5 ∧ l.Pairwise (fun a b => b.costKey ≤ a.costKey) := by
  cases o with
  | none =>
    simp only [cost_analysis] at h
    cases h
    simp
  | some t =>
    simp only [cost_analysis] at h
    cases hm : t.rows.mapM costRow with
    | error e => rw [hm] at h; simp [Except.map] at h
    | ok l0 =>
      rw [hm] at h
      simp only [Except.map, Except.ok.injEq] at h
      subst h
      constructor
      · exact List.length_take_le 5 _
      · haveI : IsTotal CostEntry (fun a b => b.costKey ≤ a.costKey) :=
          ⟨fun a b => le_total b.costKey a.costKey⟩
        haveI : IsTrans CostEntry (fun a b => b.costKey ≤ a.costKey) :=
          ⟨fun _ _ _ hab hbc => le_trans hbc hab⟩
        exact (List.sorted_insertionSort _ _).sublist (List.take_sublist 5 _)

/-- C4 witness: the amended theorem applied to the two-egg-row table. -/
theorem cost_analysis_bounded_and_sorted_witness :
    [eggEntry1, eggEntry2].length ≤ 5 ∧
      [eggEntry1, eggEntry2].Pairwise (fun a b => b.costKey ≤ a.costKey) :=
  cost_analysis_bounded_and_sorted (some ⟨shipCols, [rowEgg1, rowEgg2]⟩)
    [eggEntry1, eggEntry2] (by decide)

/-- C5 counterexample: the claim says forecast2 rounds to 221 with one
200-row period, and that forecast1 is 500 when nothing is loaded; the code
truncates (`int`), giving forecast2 = int(210 × 1.05) = int(220.5) = 220,
and with no loaded period it returns the empty structure, never 500. -/
theorem forecast_truncation_and_empty_cex :
    forecast [("May", tbl200)] =
      ⟨["May", "Forecast 1", "Forecast 2"], [some 200, none, none],
       [some 200, some 210, some 220]⟩ ∧
    (220 : ℤ) ≠ 221 ∧
    forecast [] = ⟨[], [], []⟩ := by
  refine ⟨by decide, by decide, rfl⟩

/-- C5 (amended): with no loaded period `forecast` returns the empty
structure; with exactly one loaded period (May, any table) it returns
forecast1 = int(lastActual × 1.05) and forecast2 = int(forecast1 × 1.05) —
truncation, not rounding — so one period of 200 rows gives 210 and 220. -/
theorem forecast_single_period_fallback (t : Table) :
    forecast [("May", t)] =
      ⟨["May", "Forecast 1", "Forecast 2"],
       [some (t.rows.length : ℤ), none, none],
       [some (t.rows.length : ℤ),
        some (pyInt (qMul (t.rows.length : ℚ) (mkRat 21 20))),
        some (pyInt (qMul ((pyInt (qMul (t.rows.length : ℚ) (mkRat 21 20)) : ℤ) : ℚ) (mkRat 21 20)))]⟩ ∧
    forecast [] = ⟨[], [], []⟩ :=
  ⟨rfl, rfl⟩

/-- C6 counterexample: the claim says the projections are rounded
(`round(a·k + b)`); with three periods of 0, 1, 1 rows the fitted line is
`y = x/2 + 1/6`, whose value at x = 3 is 5/3: rounding gives 2, but the
code truncates and returns 1. -/
theorem forecast_polyfit_rounding_cex :
    polyfit1 [0, 1, 1] = (mkRat 1 2, mkRat 1 6) ∧
    qAdd (qMul (mkRat 1 2) 3) (mkRat 1 6) = mkRat 5 3 ∧
    round ((5 : ℚ) / 3) = 2 ∧
    forecast tblsLinCex =
      ⟨["May", "June", "July", "Forecast 1", "Forecast 2"],
       [some 0, some 1, some 1, none, none],
       [none, none, some 1, some 1, some 2]⟩ ∧
    (1 : ℤ) ≠ 2 := by
  refine ⟨by decide, by decide, ?_, by decide, by decide⟩
  rw [round_eq]
  norm_num

/-- C6 (amended): with k ≥ 2 periods the code fits the exact least-squares
line and truncates (`int`) the projected values; in particular for row
counts [10, 20, 30] the fit is slope 10, intercept 10, and the projections
are 40 and 50 (the claim's concrete instance holds, its rounding clause
does not — see the counterexample). -/
theorem forecast_polyfit_truncated_102030 :
    polyfit1 [10, 20, 30] = (10, 10) ∧
    forecast tbls102030 =
      ⟨["May", "June", "July", "Forecast 1", "Forecast 2"],
       [some 10, some 20, some 30, none, none],
       [none, none, some 30, some 40, some 50]⟩ :=
  ⟨by decide, by decide⟩

/-- C7: the alerts list never exceeds 3 entries for any shipment table; a
record with 5 shipments emits the high-frequency warning, one with 4 does
not, a record whose ingredient contains "egg" emits the critical alert; and
on a four-row table the alerts appear in record encounter order, truncated
to the first 3. -/
theorem alerts_cap_and_boundary :
    (∀ t r, alerts (some t) = .ok r → r.length ≤ 3) ∧
    alerts (some ⟨shipCols, [row5]⟩) =
      .ok [⟨"warning", "Rice - High Frequency", "5 shipments weekly"⟩] ∧
    alerts (some ⟨shipCols, [row4]⟩) = .ok [] ∧
    alerts (some ⟨shipCols, [rowEggA]⟩) =
      .ok [⟨"critical", "Egg - Critical Item", "Requires 20 doz per weekly"⟩] ∧
    alerts (some ⟨shipCols, [rowEggA, row5, row5, row5]⟩) =
      .ok [⟨"critical", "Egg - Critical Item", "Requires 20 doz per weekly"⟩,
           ⟨"warning", "Rice - High Frequency", "5 shipments weekly"⟩,
           ⟨"warning", "Rice - High Frequency", "5 shipments weekly"⟩] := by
  refine ⟨?_, by decide, by decide, by decide, by decide⟩
  intro t r h
  simp only [alerts] at h
  cases hm : alertRows t.rows with
  | error e => rw [hm] at h; simp [Except.map] at h
  | ok l =>
    rw [hm] at h
    simp only [Except.map, Except.ok.injEq] at h
    subst h
    exact List.length_take_le 3 l

/-- C7 witness: the cap instantiated at the four-row table. -/
theorem alerts_cap_and_boundary_witness :
    ([⟨"critical", "Egg - Critical Item", "Requires 20 doz per weekly"⟩,
      ⟨"warning", "Rice - High Frequency", "5 shipments weekly"⟩,
      ⟨"warning", "Rice - High Frequency", "5 shipments weekly"⟩] : List Alert).length ≤ 3 :=
  alerts_cap_and_boundary.1 ⟨shipCols, [rowEggA, row5, row5, row5]⟩
    [⟨"critical", "Egg - Critical Item", "Requires 20 doz per weekly"⟩,
     ⟨"warning", "Rice - High Frequency", "5 shipments weekly"⟩,
     ⟨"warning", "Rice - High Frequency", "5 shipments weekly"⟩] (by decide)

/-- C8 counterexample: the dataset's missing-data sentinel arrives from
pandas as a numpy `nan`, which `safe_val`'s `np.generic` branch unwraps and
returns *before* the `pd.isna` check — so the NaN sentinel does not yield
the default, and applying `safe_val` a second time to that output (with the
same default 0) yields 0 instead of the output: idempotence fails. -/
theorem safe_val_np_nan_cex :
    safe_val (.np .nan) (natv 0) = .native .nan ∧
    Value.native .nan ≠ natv 0 ∧
    safe_val (safe_val (.np .nan) (natv 0)) (natv 0) = natv 0 ∧
    safe_val (safe_val (.np .nan) (natv 0)) (natv 0) ≠ safe_val (.np .nan) (natv 0) := by
  decide

/-- C8 (amended): `safe_val` is total (it is a total function of the
embedding, as the source's `try`/`except` guarantees); `None` yields the
default, a *native* NaN yields the default, a numpy-wrapped scalar is
unwrapped to its native form; and the function is idempotent on every input
except a numpy-wrapped NaN (and numpy-wrapped defaults), the case of the
counterexample. -/
theorem safe_val_amended (v d : Value) (h1 : v ≠ .np .nan) (h2 : ∀ s, d ≠ .np s) :
    safe_val .null d = d ∧
    safe_val (.native .nan) d = d ∧
    (∀ s, safe_val (.np s) d = .native s) ∧
    safe_val (safe_val v d) d = safe_val v d := by
  refine ⟨rfl, rfl, fun s => rfl, ?_⟩
  cases v with
  | null =>
    cases d with
    | null => rfl
    | native s => cases s <;> rfl
    | np s => exact absurd rfl (h2 s)
  | native s =>
    cases s with
    | nan =>
      cases d with
      | null => rfl
      | native s2 => cases s2 <;> rfl
      | np s2 => exact absurd rfl (h2 s2)
    | num q => rfl
    | str s2 => rfl
    | bool b => rfl
  | np s =>
    cases s with
    | nan => exact absurd rfl h1
    | num q => rfl
    | str s2 => rfl
    | bool b => rfl

/-- C8 witness: the amended theorem at a native string input with default 7. -/
theorem safe_val_amended_witness :
    safe_val .null (natv 7) = natv 7 ∧
    safe_val (.native .nan) (natv 7) = natv 7 ∧
    (∀ s, safe_val (.np s) (natv 7) = .native s) ∧
    safe_val (safe_val (strv "x") (natv 7)) (natv 7) = safe_val (strv "x") (natv 7) :=
  safe_val_amended (strv "x") (natv 7)
    (fun h => Value.noConfusion h) (fun _ h => Value.noConfusion h)

/-- C9: in every successfully computed matrix row the complexity tier is
`complexityOf` of the number of used-ingredient columns (the columns after
the item name whose value is present and non-zero), and `complexityOf`
realises the claimed thresholds: "Low" iff the count is at most 3, "Medium"
for 4 to 6, "High" from 7 up. -/
theorem matrix_complexity_tiers :
    (∀ cols r names e, usedCols (cols.drop 1) r = .ok names →
        matrixRow cols r = .ok e → e.complexity = complexityOf names.length) ∧
    (∀ n : ℕ,
      (n ≤ 3 → complexityOf n = "Low") ∧
      (4 ≤ n → n ≤ 6 → complexityOf n = "Medium") ∧
      (7 ≤ n → complexityOf n = "High")) := by
  constructor
  · intro cols r names e h1 h2
    simp only [matrixRow, h1] at h2
    cases hp : proteinScan proteinCols r with
    | error ep => rw [hp] at h2; cases h2
    | ok p =>
      rw [hp] at h2
      cases hi : getItem r "Item name" with
      | error ei => rw [hi] at h2; cases h2
      | ok it =>
        rw [hi] at h2
        cases h2
        rfl
  · intro n
    refine ⟨fun h => ?_, fun h4 h6 => ?_, fun h7 => ?_⟩
    · simp [complexityOf, h]
    · have hn3 : ¬ n ≤ 3 := by omega
      simp [complexityOf, hn3, h6]
    · have hn3 : ¬ n ≤ 3 := by omega
      have hn6 : ¬ n ≤ 6 := by omega
      simp [complexityOf, hn3, hn6]

/-- C9 witness: the tier equation applied to a concrete row with 3 used
columns, and the full matrix route on rows with 3, 4 and 7 used columns
producing "Low", "Medium" and "High". -/
theorem matrix_complexity_tiers_witness :
    ((⟨strv "Dish", "a, b, c", "0", "Low"⟩ : MatrixEntry).complexity = complexityOf 3) ∧
    ingredient_matrix (some ⟨icols, [irow3, irow4, irow7]⟩) =
      .ok [⟨strv "Dish", "a, b, c", "0", "Low"⟩,
           ⟨strv "Dish", "a, b, c, d", "0", "Medium"⟩,
           ⟨strv "Dish", "a, b, c, d", "0", "High"⟩] :=
  ⟨matrix_complexity_tiers.1 icols irow3 ["a", "b", "c"]
      ⟨strv "Dish", "a, b, c", "0", "Low"⟩ (by decide) (by decide),
   by decide⟩

/-- Upserting under a different key leaves a dict lookup unchanged. -/
theorem dlookup_upsert_ne (k k2 : String) (v : ProteinEntry)
    (l : List (String × ProteinEntry)) (h : k ≠ k2) :
    dlookup k (upsert k2 v l) = dlookup k l := by
  induction l with
  | nil => simp [upsert, dlookup, Ne.symm h]
  | cons p t ih =>
    obtain ⟨k3, v3⟩ := p
    by_cases hk : k3 = k2
    · subst hk
      simp [upsert, dlookup, Ne.symm h]
    · simp [upsert, dlookup, hk, ih]

/-- The protein row loop never writes a "pork" key. -/
theorem proteinRows_pork_free (rows : List Row) :
    ∀ acc d, dlookup "pork" acc = none → proteinRows rows acc = .ok d →
      dlookup "pork" d = none := by
  induction rows with
  | nil =>
    intro acc d h1 h2
    cases h2
    exact h1
  | cons r rs ih =>
    intro acc d h1 h2
    simp only [proteinRows] at h2
    cases ha : proteinRowAct r with
    | error e => rw [ha] at h2; cases h2
    | ok res =>
      rw [ha] at h2
      cases res with
      | none => exact ih acc d h1 h2
      | some p =>
        obtain ⟨tag, pe⟩ := p
        refine ih _ d ?_ h2
        rw [dlookup_upsert_ne _ _ _ _ ?_]
        · exact h1
        · cases tag <;> decide

/-- A lookup absent from `l` finds the appended binding. -/
theorem dlookup_append_single (k : String) (v : ProteinEntry)
    (l : List (String × ProteinEntry)) (h : dlookup k l = none) :
    dlookup k (l ++ [(k, v)]) = some v := by
  induction l with
  | nil => simp [dlookup]
  | cons p t ih =>
    obtain ⟨k2, v2⟩ := p
    by_cases hk : k2 = k
    · subst hk; simp [dlookup] at h
    · simp only [dlookup, hk, if_false, List.cons_append] at h ⊢
      exact ih h

/-- C10: whenever the protein-forecast route returns a result for a present
shipment table, the result's "pork" entry is the hardcoded placeholder
`{amount: "40 lbs", shipments: "estimated"}` — the row loop can only ever
write "beef" or "chicken" keys, so no shipment record populates pork from
data and the final fallback always inserts the placeholder. -/
theorem protein_forecast_pork_placeholder (t : Table) (d : List (String × ProteinEntry))
    (h : protein_forecast (some t) = .ok d) :
    dlookup "pork" d = some ⟨"40 lbs", "estimated"⟩ := by
  simp only [protein_forecast] at h
  cases hm : proteinRows t.rows [] with
  | error e => rw [hm] at h; simp [Except.map] at h
  | ok d0 =>
    rw [hm] at h
    simp only [Except.map, Except.ok.injEq] at h
    have hfree : dlookup "pork" d0 = none := proteinRows_pork_free t.rows [] d0 rfl hm
    rw [hfree] at h
    simp only [Option.isSome_none, Bool.false_eq_true, if_false] at h
    subst h
    exact dlookup_append_single _ _ _ hfree

/-- C10 witness: the theorem applied to the empty shipment table, whose
protein forecast is exactly the pork placeholder. -/
theorem protein_forecast_pork_placeholder_witness :
    dlookup "pork" [("pork", (⟨"40 lbs", "estimated"⟩ : ProteinEntry))] =
      some ⟨"40 lbs", "estimated"⟩ :=
  protein_forecast_pork_placeholder ⟨shipCols, []⟩
    [("pork", ⟨"40 lbs", "estimated"⟩)] (by decide)

end MSY
